import Mathlib

/-!
Shallow embedding of `diffrax/_brownian/path.py` (`UnsafeBrownianPath`).

Modelling choices:

* A JAX PRNG key is an opaque token; we model it as a natural number.
* A real scalar endpoint (`RealScalarLike`) is modelled by its 32-bit
  pattern (a natural number, meaningful below `2 ^ 32`); its numeric value
  is recovered through the PRNG backend's `decode` valuation.
* Floating-point values flowing through leaf arrays are modelled by `Fp`:
  either the not-a-number value or an exact rational.  Multiplication
  absorbs not-a-number, and the square root of a negative number is
  not-a-number, following the IEEE-754 semantics of the numeric backend
  (`jnp.sqrt`, elementwise `*`).
* The external JAX PRNG subsystem (`jax.random.fold_in`, `jax.random.split`,
  `jax.random.normal`), the IEEE decoding of a bit pattern, rounding on a
  dtype cast, and the platform default floating dtype are collaborators,
  bundled as an arbitrary `Backend`; every theorem quantifies over it.
* A pytree is a finite rose tree (`PyTree` / `PyTreeList`), its leaves
  ordered left to right as `jax.tree_util` flattens them.
-/

abbrev Key := ℕ

abbrev Time := ℕ

/-- The dtypes relevant to `UnsafeBrownianPath`, with the NumPy kind
lattice restricted to what `jnp.issubdtype` is asked about: `floating`
and `complexfloating` are the two sub-kinds of `inexact`. -/
inductive Dtype where
  | bool_
  | int32
  | int64
  | float16
  | float32
  | float64
  | complex64
  | complex128
  deriving DecidableEq, Repr

/-- `jnp.issubdtype (d, jnp.floating)`. -/
def Dtype.isFloating : Dtype → Bool
  | .float16 => true
  | .float32 => true
  | .float64 => true
  | _ => false

/-- `jnp.issubdtype (d, jnp.complexfloating)`. -/
def Dtype.isComplex : Dtype → Bool
  | .complex64 => true
  | .complex128 => true
  | _ => false

/-- `jnp.issubdtype (d, jnp.inexact)`: inexact = floating ∪ complexfloating. -/
def Dtype.isInexact (d : Dtype) : Bool :=
  d.isFloating || d.isComplex

/-- An elementwise floating-point value: not-a-number, or an exact number
(idealised as a rational). -/
inductive Fp where
  | nan
  | val (q : ℚ)
  deriving DecidableEq

/-- Elementwise multiplication: not-a-number absorbs, numbers multiply
(IEEE-754 semantics of the backend's elementwise `*`). -/
def Fp.mul : Fp → Fp → Fp
  | _, .nan => .nan
  | .nan, _ => .nan
  | .val a, .val b => .val (a * b)

/-- `jax.ShapeDtypeStruct`: a shape (list of dimensions) and a dtype. -/
structure ShapeDtypeStruct where
  shape : List ℕ
  dtype : Dtype
  deriving DecidableEq, Repr

/-- A concrete array: its shape, dtype, and flattened element data. -/
structure Arr where
  shape : List ℕ
  dtype : Dtype
  data : List Fp
  deriving DecidableEq

instance : Inhabited Arr := ⟨⟨[], .float32, []⟩⟩

mutual
/-- A JAX pytree: a leaf, or an ordered collection of subtrees. -/
inductive PyTree (α : Type) where
  | leaf (a : α)
  | node (ts : PyTreeList α)
inductive PyTreeList (α : Type) where
  | nil
  | cons (t : PyTree α) (ts : PyTreeList α)
end

mutual
/-- `jax.tree_util.tree_structure(t).num_leaves`. -/
def PyTree.numLeaves : PyTree α → ℕ
  | .leaf _ => 1
  | .node ts => ts.numLeaves
def PyTreeList.numLeaves : PyTreeList α → ℕ
  | .nil => 0
  | .cons t ts => t.numLeaves + ts.numLeaves
end

mutual
/-- `jax.tree_util.tree_leaves`: the leaves in flattening order. -/
def PyTree.leaves : PyTree α → List α
  | .leaf a => [a]
  | .node ts => ts.leaves
def PyTreeList.leaves : PyTreeList α → List α
  | .nil => []
  | .cons t ts => t.leaves ++ ts.leaves
end

mutual
/-- Map over leaves together with each leaf's index in flattening order,
starting from index `i`. -/
def PyTree.mapIdx (f : ℕ → α → β) (i : ℕ) : PyTree α → PyTree β
  | .leaf a => .leaf (f i a)
  | .node ts => .node (PyTreeList.mapIdx f i ts)
def PyTreeList.mapIdx (f : ℕ → α → β) (i : ℕ) : PyTreeList α → PyTreeList β
  | .nil => .nil
  | .cons t ts => .cons (PyTree.mapIdx f i t) (PyTreeList.mapIdx f (i + t.numLeaves) ts)
end

mutual
/-- `jax.tree_util.tree_map` over two trees of identical structure (the
only way it is called here); a structure mismatch, which `tree_map` would
reject and which never arises below, yields a default leaf. -/
def PyTree.zipWith [Inhabited γ] (f : α → β → γ) : PyTree α → PyTree β → PyTree γ
  | .leaf a, .leaf b => .leaf (f a b)
  | .node ts, .node us => .node (PyTreeList.zipWith f ts us)
  | _, _ => .leaf default
def PyTreeList.zipWith [Inhabited γ] (f : α → β → γ) : PyTreeList α → PyTreeList β → PyTreeList γ
  | .nil, _ => .nil
  | .cons _ _, .nil => .nil
  | .cons t ts, .cons u us => .cons (PyTree.zipWith f t u) (PyTreeList.zipWith f ts us)
end

mutual
/-- Structural fidelity of a result tree against a descriptor tree: same
tree structure, and each leaf array's shape and dtype equal the
descriptor leaf's. -/
def PyTree.matchesDescriptor : PyTree Arr → PyTree ShapeDtypeStruct → Bool
  | .leaf a, .leaf s => decide (a.shape = s.shape) && decide (a.dtype = s.dtype)
  | .node ts, .node us => PyTreeList.matchesDescriptor ts us
  | _, _ => false
def PyTreeList.matchesDescriptor : PyTreeList Arr → PyTreeList ShapeDtypeStruct → Bool
  | .nil, .nil => true
  | .cons t ts, .cons u us =>
      PyTree.matchesDescriptor t u && PyTreeList.matchesDescriptor ts us
  | _, _ => false
end

/-- The external collaborators of `UnsafeBrownianPath`, per the spec's
collaborator contract: the PRNG subsystem (`fold_in`, indexed `split`,
`normal`), the IEEE valuation of a 32-bit pattern, rounding on a dtype
cast, the square root of a nonnegative number, and the platform default
floating dtype.  All are arbitrary deterministic functions. -/
structure Backend where
  fold_in : Key → ℤ → Key
  splitKey : Key → ℕ → ℕ → Key
  normal : Key → List ℕ → Dtype → List Fp
  decode : Time → ℚ
  sqrtPos : ℚ → ℚ
  round : Dtype → ℚ → ℚ
  defaultFloat : Dtype

/-- Modelled from the spec: `force_bitcast_convert_type(t, jnp.int32)`
from `diffrax/_misc.py` (not under `src/`): reinterpret the endpoint's
32-bit pattern as a 32-bit signed integer, a bit-level reinterpretation
and not a numeric cast. -/
def force_bitcast_convert_type (t : Time) : ℤ :=
  let b := t % 4294967296
  if b < 2147483648 then (b : ℤ) else (b : ℤ) - 4294967296

/-- Modelled from the spec: `split_by_tree(key, tree)` from
`diffrax/_misc.py` (not under `src/`): split one key into
`num_leaves` sub-keys (`jax.random.split`) and unflatten them over the
tree, so the leaf at flattening index `i` receives sub-key `i`. -/
def split_by_tree (B : Backend) (key : Key) (tree : PyTree α) : PyTree Key :=
  PyTree.mapIdx (fun i _ => B.splitKey key tree.numLeaves i) 0 tree

/-- `jnp.sqrt` on an exact argument: not-a-number for a negative
argument (IEEE-754), the backend's nonnegative square root otherwise. -/
def sqrtF (B : Backend) (q : ℚ) : Fp :=
  if q < 0 then .nan else .val (B.sqrtPos q)

/-- `.astype(dtype)` on a scalar: not-a-number stays not-a-number,
numbers are rounded by the backend for the target dtype. -/
def castF (B : Backend) (d : Dtype) : Fp → Fp
  | .nan => .nan
  | .val q => .val (B.round d q)

/-- The sampler: its static shape descriptor pytree and its base key. -/
structure UnsafeBrownianPath where
  shape : PyTree ShapeDtypeStruct
  key : Key

/-- The `shape` constructor argument: either a bare tuple of ints or a
pytree of `jax.ShapeDtypeStruct`s (`is_tuple_of_ints` dispatch). -/
inductive ShapeArg where
  | tuple (dims : List ℕ)
  | tree (t : PyTree ShapeDtypeStruct)

/-- `UnsafeBrownianPath.__init__`: normalise a bare tuple to a single
leaf with the default floating dtype, store shape and key, then raise
`ValueError` if any leaf dtype is not a subdtype of `jnp.inexact`. -/
def UnsafeBrownianPath.init (B : Backend) (shape : ShapeArg) (key : Key) :
    Except String UnsafeBrownianPath :=
  let shape' : PyTree ShapeDtypeStruct :=
    match shape with
    | .tuple dims => .leaf ⟨dims, B.defaultFloat⟩
    | .tree t => t
  if shape'.leaves.any (fun x => !x.dtype.isInexact) then
    .error "UnsafeBrownianPath dtypes all have to be floating-point."
  else
    .ok ⟨shape', key⟩

/-- `UnsafeBrownianPath._evaluate_leaf`:
`jrandom.normal(key, shape.shape, shape.dtype) * jnp.sqrt(t1 - t0).astype(shape.dtype)`. -/
def UnsafeBrownianPath.evaluate_leaf (B : Backend) (t0 t1 : Time) (key : Key)
    (shape : ShapeDtypeStruct) : Arr :=
  let factor := castF B shape.dtype (sqrtF B (B.decode t1 - B.decode t0))
  { shape := shape.shape
    dtype := shape.dtype
    data := (B.normal key shape.shape shape.dtype).map (fun x => x.mul factor) }

/-- The body of `UnsafeBrownianPath.evaluate` after the `t1 is None`
normalisation: bitcast both endpoints, fold each into the key, split the
key over the shape tree, and map `_evaluate_leaf` over sub-keys and
descriptor leaves. -/
def UnsafeBrownianPath.evaluateBody (B : Backend) (p : UnsafeBrownianPath)
    (t0 t1 : Time) : PyTree Arr :=
  let t0i := force_bitcast_convert_type t0
  let t1i := force_bitcast_convert_type t1
  let key := B.fold_in (B.fold_in p.key t0i) t1i
  let keys := split_by_tree B key p.shape
  PyTree.zipWith (fun key shape => UnsafeBrownianPath.evaluate_leaf B t0 t1 key shape)
    keys p.shape

/-- `UnsafeBrownianPath.evaluate(t0, t1=None, left=True)`: `left` is
deleted unused; if `t1` is omitted the call is treated as
`evaluate(0, t0)`. -/
def UnsafeBrownianPath.evaluate (B : Backend) (p : UnsafeBrownianPath)
    (t0 : Time) (t1? : Option Time) (left : Bool) : PyTree Arr :=
  match t1? with
  | none => UnsafeBrownianPath.evaluateBody B p 0 t0
  | some t1 => UnsafeBrownianPath.evaluateBody B p t0 t1

/-- A concrete instantiation of the external collaborators, used only to
exhibit witnesses at concrete inputs. -/
def testBackend : Backend where
  fold_in := fun k i => 2 * k + i.natAbs + 1
  splitKey := fun k n i => k + 1000 * n + i
  normal := fun k s _ => (List.range s.prod).map (fun i => Fp.val ((k : ℚ) + i))
  decode := fun t => (t : ℚ)
  sqrtPos := fun q => q
  round := fun _ q => q
  defaultFloat := .float32

theorem Fp.mul_nan (x : Fp) : x.mul .nan = .nan := by
  cases x <;> rfl

mutual
theorem PyTree.zipWith_mapIdx {α κ γ : Type} [Inhabited γ] (f : κ → α → γ) (g : ℕ → α → κ) :
    ∀ (i : ℕ) (t : PyTree α),
      PyTree.zipWith f (PyTree.mapIdx g i t) t = PyTree.mapIdx (fun j a => f (g j a) a) i t
  | _, .leaf _ => rfl
  | i, .node ts => by
      have h := PyTreeList.zipWith_mapIdxList f g i ts
      simp [PyTree.mapIdx, PyTree.zipWith, h]
theorem PyTreeList.zipWith_mapIdxList {α κ γ : Type} [Inhabited γ] (f : κ → α → γ) (g : ℕ → α → κ) :
    ∀ (i : ℕ) (ts : PyTreeList α),
      PyTreeList.zipWith f (PyTreeList.mapIdx g i ts) ts
        = PyTreeList.mapIdx (fun j a => f (g j a) a) i ts
  | _, .nil => rfl
  | i, .cons t ts => by
      have h1 := PyTree.zipWith_mapIdx f g i t
      have h2 := PyTreeList.zipWith_mapIdxList f g (i + t.numLeaves) ts
      simp [PyTreeList.mapIdx, PyTreeList.zipWith, h1, h2]
end

theorem UnsafeBrownianPath.evaluateBody_eq_mapIdx (B : Backend) (p : UnsafeBrownianPath)
    (t0 t1 : Time) :
    UnsafeBrownianPath.evaluateBody B p t0 t1
      = PyTree.mapIdx
          (fun i sds =>
            UnsafeBrownianPath.evaluate_leaf B t0 t1
              (B.splitKey
                (B.fold_in (B.fold_in p.key (force_bitcast_convert_type t0))
                  (force_bitcast_convert_type t1))
                p.shape.numLeaves i)
              sds)
          0 p.shape :=
  PyTree.zipWith_mapIdx _ _ 0 p.shape

mutual
theorem PyTree.matchesDescriptor_mapIdx (f : ℕ → ShapeDtypeStruct → Arr)
    (hf : ∀ j a, (f j a).shape = a.shape ∧ (f j a).dtype = a.dtype) :
    ∀ (i : ℕ) (t : PyTree ShapeDtypeStruct),
      PyTree.matchesDescriptor (PyTree.mapIdx f i t) t = true
  | i, .leaf a => by
      have h := hf i a
      simp [PyTree.mapIdx, PyTree.matchesDescriptor, h.1, h.2]
  | i, .node ts => PyTreeList.matchesDescriptor_mapIdxList f hf i ts
theorem PyTreeList.matchesDescriptor_mapIdxList (f : ℕ → ShapeDtypeStruct → Arr)
    (hf : ∀ j a, (f j a).shape = a.shape ∧ (f j a).dtype = a.dtype) :
    ∀ (i : ℕ) (ts : PyTreeList ShapeDtypeStruct),
      PyTreeList.matchesDescriptor (PyTreeList.mapIdx f i ts) ts = true
  | _, .nil => rfl
  | i, .cons t ts => by
      have h1 := PyTree.matchesDescriptor_mapIdx f hf i t
      have h2 := PyTreeList.matchesDescriptor_mapIdxList f hf (i + t.numLeaves) ts
      simp [PyTreeList.mapIdx, PyTreeList.matchesDescriptor, h1, h2]
end

mutual
theorem PyTree.leaves_mapIdx {α β : Type} (f : ℕ → α → β) :
    ∀ (i : ℕ) (t : PyTree α) (b : β),
      b ∈ (PyTree.mapIdx f i t).leaves → ∃ j a, b = f j a
  | i, .leaf a, b, hb => ⟨i, a, by simpa [PyTree.mapIdx, PyTree.leaves] using hb⟩
  | i, .node ts, b, hb => PyTreeList.leaves_mapIdxList f i ts b hb
theorem PyTreeList.leaves_mapIdxList {α β : Type} (f : ℕ → α → β) :
    ∀ (i : ℕ) (ts : PyTreeList α) (b : β),
      b ∈ (PyTreeList.mapIdx f i ts).leaves → ∃ j a, b = f j a
  | _, .nil, b, hb => absurd hb (by simp [PyTreeList.mapIdx, PyTreeList.leaves])
  | i, .cons t ts, b, hb => by
      have hb' : b ∈ (PyTree.mapIdx f i t).leaves
          ∨ b ∈ (PyTreeList.mapIdx f (i + t.numLeaves) ts).leaves := by
        simpa [PyTreeList.mapIdx, PyTreeList.leaves] using hb
      cases hb' with
      | inl h => exact PyTree.leaves_mapIdx f i t b h
      | inr h => exact PyTreeList.leaves_mapIdxList f (i + t.numLeaves) ts b h
end

theorem UnsafeBrownianPath.evaluateBody_matches (B : Backend) (p : UnsafeBrownianPath)
    (t0 t1 : Time) :
    PyTree.matchesDescriptor (UnsafeBrownianPath.evaluateBody B p t0 t1) p.shape = true := by
  rw [UnsafeBrownianPath.evaluateBody_eq_mapIdx]
  exact PyTree.matchesDescriptor_mapIdx _ (fun _ _ => ⟨rfl, rfl⟩) 0 p.shape

/-- C1: Determinism — for every backend, seed, shape descriptor and pair
of endpoints, two samplers constructed with the same arguments return
identical structured results for calls to `evaluate` with identical
arguments. -/
theorem evaluate_deterministic (B : Backend) (s : ShapeArg) (k : Key)
    (t0 : Time) (t1? : Option Time) (l : Bool) (p1 p2 : UnsafeBrownianPath)
    (h1 : UnsafeBrownianPath.init B s k = .ok p1)
    (h2 : UnsafeBrownianPath.init B s k = .ok p2) :
    UnsafeBrownianPath.evaluate B p1 t0 t1? l
      = UnsafeBrownianPath.evaluate B p2 t0 t1? l := by
  have h := h1.symm.trans h2
  injection h with h
  subst h
  rfl

/-- Witness for C1: a concrete backend, descriptor, seed and query. -/
theorem evaluate_deterministic_witness :
    UnsafeBrownianPath.init testBackend (.tree (.leaf ⟨[3], .float32⟩)) 5
        = .ok ⟨.leaf ⟨[3], .float32⟩, 5⟩
      ∧ UnsafeBrownianPath.evaluate testBackend ⟨.leaf ⟨[3], .float32⟩, 5⟩ 0 (some 1) true
        = UnsafeBrownianPath.evaluate testBackend ⟨.leaf ⟨[3], .float32⟩, 5⟩ 0 (some 1) true :=
  ⟨rfl,
    evaluate_deterministic testBackend (.tree (.leaf ⟨[3], .float32⟩)) 5 0 (some 1) true
      ⟨.leaf ⟨[3], .float32⟩, 5⟩ ⟨.leaf ⟨[3], .float32⟩, 5⟩ rfl rfl⟩

/-- C2: Algorithm of `evaluate` — the per-query key folds the bitcast of
`t0` into the base key and then the bitcast of `t1` into that token; the
key is split into one sub-key per descriptor leaf (by flattening index),
and each result leaf is the standard-normal draw of that leaf's shape and
dtype from its sub-key, multiplied elementwise by `sqrt (t1 - t0)` cast
to the leaf's dtype. -/
theorem evaluate_algorithm (B : Backend) (p : UnsafeBrownianPath)
    (t0 t1 : Time) (l : Bool) :
    UnsafeBrownianPath.evaluate B p t0 (some t1) l
      = PyTree.mapIdx
          (fun i sds =>
            { shape := sds.shape
              dtype := sds.dtype
              data :=
                (B.normal
                    (B.splitKey
                      (B.fold_in (B.fold_in p.key (force_bitcast_convert_type t0))
                        (force_bitcast_convert_type t1))
                      p.shape.numLeaves i)
                    sds.shape sds.dtype).map
                  (fun x => x.mul (castF B sds.dtype (sqrtF B (B.decode t1 - B.decode t0)))) })
          0 p.shape :=
  UnsafeBrownianPath.evaluateBody_eq_mapIdx B p t0 t1

/-- C4: Single-argument form — calling `evaluate` with `t1` omitted
behaves as `evaluate (0, t0)` on the same sampler. -/
theorem evaluate_single_argument (B : Backend) (p : UnsafeBrownianPath)
    (t : Time) (l : Bool) :
    UnsafeBrownianPath.evaluate B p t none l
      = UnsafeBrownianPath.evaluate B p 0 (some t) l :=
  rfl

/-- C6: Shape fidelity — for every shape descriptor (including deeply
nested ones) and every query, the result of `evaluate` has exactly the
descriptor's tree structure, and each leaf array has exactly the shape
and dtype declared for that leaf. -/
theorem evaluate_shape_fidelity (B : Backend) (p : UnsafeBrownianPath)
    (t0 : Time) (t1? : Option Time) (l : Bool) :
    PyTree.matchesDescriptor (UnsafeBrownianPath.evaluate B p t0 t1? l) p.shape = true := by
  cases t1? with
  | none => exact UnsafeBrownianPath.evaluateBody_matches B p 0 t0
  | some t1 => exact UnsafeBrownianPath.evaluateBody_matches B p t0 t1

/-- C8: The `left` flag has no observable effect — `evaluate` with
`left = true` and `left = false` return identical results. -/
theorem evaluate_left_irrelevant (B : Backend) (p : UnsafeBrownianPath)
    (t0 : Time) (t1? : Option Time) :
    UnsafeBrownianPath.evaluate B p t0 t1? true
      = UnsafeBrownianPath.evaluate B p t0 t1? false :=
  rfl

theorem UnsafeBrownianPath.evaluateBody_nan (B : Backend) (p : UnsafeBrownianPath)
    (t0 t1 : Time) (h : B.decode t1 < B.decode t0) :
    ∀ arr ∈ (UnsafeBrownianPath.evaluateBody B p t0 t1).leaves,
      ∀ x ∈ arr.data, x = Fp.nan := by
  intro arr harr x hx
  rw [UnsafeBrownianPath.evaluateBody_eq_mapIdx] at harr
  obtain ⟨j, sds, rfl⟩ := PyTree.leaves_mapIdx _ 0 p.shape arr harr
  have hneg : B.decode t1 - B.decode t0 < 0 := sub_neg.mpr h
  have hs : sqrtF B (B.decode t1 - B.decode t0) = Fp.nan := if_pos hneg
  simp only [UnsafeBrownianPath.evaluate_leaf, hs, castF, List.mem_map] at hx
  obtain ⟨y, _, rfl⟩ := hx
  exact Fp.mul_nan y

/-- C5: Reversed interval — for every query whose endpoints decode to
`t1 < t0`, `evaluate` raises no error: it returns a result of the normal
structure and declared shapes, all of whose leaf elements are
not-a-number. -/
theorem evaluate_reversed_interval_nan (B : Backend) (p : UnsafeBrownianPath)
    (t0 t1 : Time) (l : Bool) (h : B.decode t1 < B.decode t0) :
    PyTree.matchesDescriptor (UnsafeBrownianPath.evaluate B p t0 (some t1) l) p.shape = true
      ∧ ∀ arr ∈ (UnsafeBrownianPath.evaluate B p t0 (some t1) l).leaves,
          ∀ x ∈ arr.data, x = Fp.nan :=
  ⟨UnsafeBrownianPath.evaluateBody_matches B p t0 t1,
    UnsafeBrownianPath.evaluateBody_nan B p t0 t1 h⟩

/-- Witness for C5: a concrete reversed query `evaluate (5, 3)`. -/
theorem evaluate_reversed_interval_nan_witness :
    testBackend.decode 3 < testBackend.decode 5
      ∧ (PyTree.matchesDescriptor
            (UnsafeBrownianPath.evaluate testBackend ⟨.leaf ⟨[2], .float32⟩, 42⟩ 5 (some 3) true)
            (PyTree.leaf ⟨[2], .float32⟩) = true
          ∧ ∀ arr ∈ (UnsafeBrownianPath.evaluate testBackend ⟨.leaf ⟨[2], .float32⟩, 42⟩
                5 (some 3) true).leaves,
              ∀ x ∈ arr.data, x = Fp.nan) := by
  have h : testBackend.decode 3 < testBackend.decode 5 := by
    show ((3 : ℕ) : ℚ) < ((5 : ℕ) : ℚ)
    norm_num
  exact ⟨h, evaluate_reversed_interval_nan testBackend ⟨.leaf ⟨[2], .float32⟩, 42⟩ 5 3 true h⟩

/-- C3 counterexample: a descriptor whose only leaf has dtype
`complex64` — not a floating-point kind — constructs without raising,
contradicting the claim that any non-floating leaf dtype raises. -/
theorem construction_complex_counterexample :
    UnsafeBrownianPath.init testBackend (.tree (.leaf ⟨[3], .complex64⟩)) 0
        = .ok ⟨.leaf ⟨[3], .complex64⟩, 0⟩
      ∧ Dtype.complex64.isFloating = false :=
  ⟨rfl, rfl⟩

/-- C3 (amended): construction raises the configuration error exactly
when some leaf dtype is not inexact (neither floating nor complex);
construction with all-floating leaf dtypes does not raise. -/
theorem construction_raises_iff_not_inexact (B : Backend)
    (t : PyTree ShapeDtypeStruct) (k : Key) :
    ((∃ x ∈ t.leaves, x.dtype.isInexact = false)
        ↔ UnsafeBrownianPath.init B (.tree t) k
            = .error "UnsafeBrownianPath dtypes all have to be floating-point.")
      ∧ ((∀ x ∈ t.leaves, x.dtype.isFloating = true)
          → UnsafeBrownianPath.init B (.tree t) k = .ok ⟨t, k⟩) := by
  have hiff : t.leaves.any (fun x => !x.dtype.isInexact) = true
      ↔ ∃ x ∈ t.leaves, x.dtype.isInexact = false := by
    simp [List.any_eq_true]
  constructor
  · constructor
    · intro hex
      have hany := hiff.mpr hex
      simp [UnsafeBrownianPath.init, hany]
    · intro herr
      cases hb : t.leaves.any (fun x => !x.dtype.isInexact) with
      | true => exact hiff.mp hb
      | false => simp [UnsafeBrownianPath.init, hb] at herr
  · intro hall
    have hany : t.leaves.any (fun x => !x.dtype.isInexact) = false := by
      rw [Bool.eq_false_iff]
      intro hb
      obtain ⟨x, hx, hfalse⟩ := hiff.mp hb
      rw [Dtype.isInexact, hall x hx] at hfalse
      simp at hfalse
    simp [UnsafeBrownianPath.init, hany]

/-- Witness for C3 (amended): an all-floating descriptor constructs
without raising. -/
theorem construction_raises_iff_not_inexact_witness :
    (∀ x ∈ (PyTree.leaf (⟨[2], .float32⟩ : ShapeDtypeStruct)).leaves,
        x.dtype.isFloating = true)
      ∧ UnsafeBrownianPath.init testBackend (.tree (.leaf ⟨[2], .float32⟩)) 7
          = .ok ⟨.leaf ⟨[2], .float32⟩, 7⟩ := by
  have hall : ∀ x ∈ (PyTree.leaf (⟨[2], .float32⟩ : ShapeDtypeStruct)).leaves,
      x.dtype.isFloating = true := by decide
  exact ⟨hall,
    (construction_raises_iff_not_inexact testBackend (.leaf ⟨[2], .float32⟩) 7).2 hall⟩

/-- C7: Bit-level reinterpretation — on 32-bit patterns the conversion
of an endpoint into a 32-bit signed integer is injective: two patterns
yield the same integer exactly when they are the same pattern, so
distinct bit patterns always yield distinct integers and equal values
(equal patterns) always yield the same integer. -/
theorem force_bitcast_injective (a b : ℕ)
    (ha : a < 4294967296) (hb : b < 4294967296) :
    force_bitcast_convert_type a = force_bitcast_convert_type b ↔ a = b := by
  unfold force_bitcast_convert_type
  rw [Nat.mod_eq_of_lt ha, Nat.mod_eq_of_lt hb]
  constructor
  · intro h
    dsimp only at h
    split_ifs at h <;> omega
  · intro h
    subst h
    rfl

/-- Witness for C7 at the concrete patterns 1 and 2. -/
theorem force_bitcast_injective_witness :
    1 < 4294967296 ∧ 2 < 4294967296
      ∧ (force_bitcast_convert_type 1 = force_bitcast_convert_type 2 ↔ 1 = 2) :=
  ⟨by decide, by decide, force_bitcast_injective 1 2 (by decide) (by decide)⟩

/-- C9 counterexample: two descriptors whose offending (non-inexact)
leaves sit at different positions with different dtypes raise the same
fixed error message, so the message does not identify the offending
leaf. -/
theorem error_message_not_identifying_counterexample :
    UnsafeBrownianPath.init testBackend
        (.tree (.node (.cons (.leaf ⟨[2], .int32⟩) (.cons (.leaf ⟨[2], .float32⟩) .nil)))) 0
        = .error "UnsafeBrownianPath dtypes all have to be floating-point."
      ∧ UnsafeBrownianPath.init testBackend
          (.tree (.node (.cons (.leaf ⟨[2], .float32⟩) (.cons (.leaf ⟨[2], .int64⟩) .nil)))) 0
          = .error "UnsafeBrownianPath dtypes all have to be floating-point." :=
  ⟨rfl, rfl⟩

/-- C9 (amended): whenever construction fails because some leaf dtype is
not inexact, the error raised carries the fixed message
`UnsafeBrownianPath dtypes all have to be floating-point.`, which is the
same for every descriptor and does not identify the offending leaf. -/
theorem construction_error_fixed_message (B : Backend)
    (t : PyTree ShapeDtypeStruct) (k : Key) (x : ShapeDtypeStruct)
    (hx : x ∈ t.leaves) (hbad : x.dtype.isInexact = false) :
    UnsafeBrownianPath.init B (.tree t) k
      = .error "UnsafeBrownianPath dtypes all have to be floating-point." := by
  have hany : t.leaves.any (fun y => !y.dtype.isInexact) = true := by
    simp only [List.any_eq_true]
    exact ⟨x, hx, by simp [hbad]⟩
  simp [UnsafeBrownianPath.init, hany]

/-- Witness for C9 (amended): a concrete descriptor with an `int32`
leaf. -/
theorem construction_error_fixed_message_witness :
    (⟨[4], .int32⟩ : ShapeDtypeStruct) ∈ (PyTree.leaf (⟨[4], .int32⟩ : ShapeDtypeStruct)).leaves
      ∧ Dtype.int32.isInexact = false
      ∧ UnsafeBrownianPath.init testBackend (.tree (.leaf ⟨[4], .int32⟩)) 11
          = .error "UnsafeBrownianPath dtypes all have to be floating-point." := by
  have h1 : (⟨[4], .int32⟩ : ShapeDtypeStruct)
      ∈ (PyTree.leaf (⟨[4], .int32⟩ : ShapeDtypeStruct)).leaves := by decide
  exact ⟨h1, rfl,
    construction_error_fixed_message testBackend (.leaf ⟨[4], .int32⟩) 11 ⟨[4], .int32⟩ h1 rfl⟩

/-- C10: construction accepts complex dtypes — a leaf declared with any
complex dtype, which is inexact but not a floating-point kind, constructs
without raising, because validation only rejects dtypes that are not
inexact. -/
theorem construction_accepts_complex (B : Backend) (sh : List ℕ) (d : Dtype)
    (k : Key) (h : d.isComplex = true) :
    UnsafeBrownianPath.init B (.tree (.leaf ⟨sh, d⟩)) k = .ok ⟨.leaf ⟨sh, d⟩, k⟩
      ∧ d.isFloating = false := by
  constructor
  · have hd : d.isInexact = true := by
      simp [Dtype.isInexact, h]
    simp [UnsafeBrownianPath.init, PyTree.leaves, hd]
  · cases d <;> simp_all [Dtype.isComplex, Dtype.isFloating]

/-- Witness for C10 at `complex64`. -/
theorem construction_accepts_complex_witness :
    Dtype.complex64.isComplex = true
      ∧ (UnsafeBrownianPath.init testBackend (.tree (.leaf ⟨[2], .complex64⟩)) 9
            = .ok ⟨.leaf ⟨[2], .complex64⟩, 9⟩
          ∧ Dtype.complex64.isFloating = false) :=
  ⟨rfl, construction_accepts_complex testBackend [2] .complex64 9 rfl⟩
